import Mathlib

/-!
Verification development for the `gstatsutils` repository: a shallow embedding
of its deep-equality engine (`gstats_utils/pythonutils/equality.py`), its two
object-hashing functions (`gstats_utils/pythonutils/hashing.py` and
`gstatsutils/pythonutils/hashing.py`), and the digest-keyed dictionary
`HashableDict` (`gstats_utils/pythonutils/hashing.py`), together with theorems
settling the frozen claims about them.

Modelling conventions:
* Python values are restricted to a closed fragment `PyVal` covering the kinds
  the claims exercise: the singletons None / Ellipsis / NotImplemented, bool,
  int, float (with integer value, tracking the IEEE-754 sign of zero), complex
  (components of the same float fragment), str, list, tuple, dict, and the
  `dict_keys` view produced by `dict.keys()`.
* Python exceptions are modelled with `Except PyErr`; mutation is modelled by
  explicit state passing; `copy.deepcopy` on immutable Lean values is the
  identity.
* CPython bounds recursion (`RecursionError` past the recursion limit); the
  embedding mirrors this with an explicit fuel argument on the recursive
  functions, yielding `PyErr.recursionError` on exhaustion.  No theorem below
  depends on fuel exhaustion.
* The module `gstats_utils.pythonutils.pytypes` is imported by `equality.py`
  but is absent from the repository, so the names it provides are modelled
  from the spec (see `SingletonObjects`).
-/

/-- Fragment of IEEE-754 doubles used by the embedding: floats whose value is
an integer.  `negZero` records the sign bit of a zero (the value `-0.0` is
`⟨0, true⟩`); for a nonzero `val` the flag is meaningless and kept `false` by
convention.  Numeric comparison ignores the flag (IEEE `-0.0 == 0.0`), while
`repr`-style printing distinguishes `-0` from `0`. -/
structure PyF where
  val : Int
  negZero : Bool
deriving DecidableEq, Repr

/-- Closed fragment of Python values used by the claims.  `dictKeys` is the
view returned by `dict.keys()` (compared set-like by native `==`). -/
inductive PyVal where
  | noneV
  | ellipsisV
  | notImplementedV
  | bool (b : Bool)
  | int (n : Int)
  | float (f : PyF)
  | complex (re im : PyF)
  | str (s : String)
  | list (xs : List PyVal)
  | tuple (xs : List PyVal)
  | dict (es : List (PyVal × PyVal))
  | dictKeys (xs : List PyVal)
deriving Repr

/-- Concrete Python type of a value, as tested by `type(a) != type(b)` in
`equal` (equality.py line 163). -/
inductive PyType where
  | noneT | ellipsisT | notImplementedT | boolT | intT | floatT | complexT
  | strT | listT | tupleT | dictT | dictKeysT
deriving DecidableEq, Repr

/-- Python exceptions relevant to the embedded code.  Constructors cover both
the classes the source raises (`EqualityError`, `EqualityCheckingError`,
`KeyError`, `NameError`, `TypeError`, `ValueError`, `AttributeError`,
`NotImplementedError`, `RecursionError`) and `cyclicObjectError`, the error
kind the spec's taxonomy prescribes for cycle detection, which no class in
the source implements (used to state claims about it). -/
inductive PyErr where
  | equalityError
  | equalityCheckingError
  | keyError
  | nameError (name : String)
  | typeError
  | valueError
  | attributeError (attr : String)
  | notImplementedError
  | recursionError
  | cyclicObjectError
deriving DecidableEq, Repr

/-- Membership of an error in the spec's documented taxonomy (spec section 7):
CheckingFailure is `EqualityCheckingError`, EqualityMismatch is
`EqualityError`, plus `CyclicObjectError`; `UnsupportedMethod` and
`TypeMismatch` have no corresponding class in the source, and the raw Python
exceptions (`NameError`, `TypeError`, `ValueError`, ...) are not taxonomy
members. -/
def PyErr.inTaxonomy : PyErr → Bool
  | .equalityError => true
  | .equalityCheckingError => true
  | .cyclicObjectError => true
  | _ => false

namespace PyVal

/-- Type dispatch mirroring CPython `type(x)`. -/
def pyTypeOf : PyVal → PyType
  | .noneV => .noneT
  | .ellipsisV => .ellipsisT
  | .notImplementedV => .notImplementedT
  | .bool _ => .boolT
  | .int _ => .intT
  | .float _ => .floatT
  | .complex _ _ => .complexT
  | .str _ => .strT
  | .list _ => .listT
  | .tuple _ => .tupleT
  | .dict _ => .dictT
  | .dictKeys _ => .dictKeysT

/-- Modelled from the spec: the `SingletonObjects` tuple of the missing
`gstats_utils.pythonutils.pytypes` module.  Per the equality module docstring
("singleton objects (None, Ellipsis, NotImplemented, etc.)") and spec section
3 ("absence/singleton markers"), it holds exactly the interned singletons
None, Ellipsis and NotImplemented. -/
def isSingleton : PyVal → Bool
  | .noneV | .ellipsisV | .notImplementedV => true
  | _ => false

/-- Python object identity `a is b`, restricted to the fragment: the
singletons are interned (identity coincides with being the same singleton);
for every other kind the embedding conservatively models two distinct
objects, which matches the values the claims use (CPython does not guarantee
interning for numbers, strings or containers). -/
def pyIs : PyVal → PyVal → Bool
  | .noneV, .noneV => true
  | .ellipsisV, .ellipsisV => true
  | .notImplementedV, .notImplementedV => true
  | _, _ => false

/-- CPython `isinstance(x, bool)`. -/
def isBool : PyVal → Bool
  | .bool _ => true
  | _ => false

/-- CPython `isinstance(x, _DUNDER_EQ_TYPES)` for the fragment (equality.py
line 40: int, float, np.number, complex, bytes, bytearray, memoryview, str,
range, type, set, frozenset, DictKeysType).  In the fragment these are int,
float, complex, str and dict_keys; `bool` is included because CPython's bool
is a subclass of int (the branch testing it is preceded by the bool branch,
so this only matters for the `b` operand check). -/
def isDunderEqType : PyVal → Bool
  | .bool _ | .int _ | .float _ | .complex _ _ | .str _ | .dictKeys _ => true
  | _ => false

/-- CPython `isinstance(x, (int, float, complex, np.number))` (the numeric
branch test of gstatsutils/pythonutils/hashing.py line 61); bool is a
subclass of int. -/
def isNumeric : PyVal → Bool
  | .bool _ | .int _ | .float _ | .complex _ _ => true
  | _ => false

/-- Exact complex value of a numeric, as a pair (real, imaginary) of exact
integers; `complex(obj)` in the fragment.  The sign of a zero is dropped,
matching IEEE equality.  Non-numerics map to `none`. -/
def toComplexVal : PyVal → Option (Int × Int)
  | .bool b => some (if b then 1 else 0, 0)
  | .int n => some (n, 0)
  | .float f => some (f.val, 0)
  | .complex re im => some (re.val, im.val)
  | _ => none

end PyVal

/-! ## Native Python `==` on the fragment

The branches of `equal` marked "direct-equality types" delegate to CPython's
native `==` (`a == b` at equality.py lines 179, 185, 300, and the key lookups
of the dict branch).  `pyDunderEq` embeds that native comparison: numerics
(bool included) compare by exact numeric value, strings by contents, the
singletons only to themselves, lists/tuples elementwise, dicts by key lookup
plus per-key value comparison, and `dict_keys` views set-like (same length
and every element of one side `==`-matched in the other; dict keys are
`==`-duplicate-free so this is CPython's set comparison on the fragment). -/

/-- Elementwise native `==` of two Python sequences (CPython list/tuple
comparison: unequal lengths give False, otherwise compare pairwise). -/
def listNativeEq (eqf : PyVal → PyVal → Except PyErr Bool) :
    List PyVal → List PyVal → Except PyErr Bool
  | [], [] => .ok true
  | x :: xs, y :: ys => do
      if (← eqf x y) then listNativeEq eqf xs ys else .ok false
  | _, _ => .ok false

/-- Boolean `all` over a list with a fallible predicate. -/
def listAllE (p : PyVal → Except PyErr Bool) : List PyVal → Except PyErr Bool
  | [] => .ok true
  | x :: xs => do if (← p x) then listAllE p xs else .ok false

/-- Boolean `any` over a list with a fallible predicate. -/
def listAnyE (p : PyVal → Except PyErr Bool) : List PyVal → Except PyErr Bool
  | [] => .ok false
  | x :: xs => do if (← p x) then .ok true else listAnyE p xs

/-- Native dict lookup `d[k]` on an entry list: first entry whose key is
`==`-equal to `k` (CPython finds the unique such entry, dict keys being
deduplicated by `==`/hash on insertion). -/
def lookupNative (eqf : PyVal → PyVal → Except PyErr Bool) :
    List (PyVal × PyVal) → PyVal → Except PyErr (Option PyVal)
  | [], _ => .ok none
  | (k, v) :: rest, key => do
      if (← eqf key k) then .ok (some v) else lookupNative eqf rest key

/-- Native `==` of two dicts: same size, and every key of the first maps, in
the second, to a value `==`-equal to its own. -/
def dictNativeEq (eqf : PyVal → PyVal → Except PyErr Bool) :
    List (PyVal × PyVal) → List (PyVal × PyVal) → Except PyErr Bool
  | es, fs =>
    if es.length != fs.length then .ok false
    else go es fs
where
  go : List (PyVal × PyVal) → List (PyVal × PyVal) → Except PyErr Bool
    | [], _ => .ok true
    | (k, v) :: rest, fs => do
        match (← lookupNative eqf fs k) with
        | some w => if (← eqf v w) then go rest fs else .ok false
        | none => .ok false

/-- One layer of native `==`, parameterised by the comparison used on
sub-values. -/
def pyDunderEqBody (eqf : PyVal → PyVal → Except PyErr Bool) (a b : PyVal) :
    Except PyErr Bool :=
  match a.toComplexVal, b.toComplexVal with
  | some va, some vb => .ok (va == vb)
  | _, _ =>
    match a, b with
    | .str s, .str t => .ok (s == t)
    | .noneV, .noneV => .ok true
    | .ellipsisV, .ellipsisV => .ok true
    | .notImplementedV, .notImplementedV => .ok true
    | .list xs, .list ys => listNativeEq eqf xs ys
    | .tuple xs, .tuple ys => listNativeEq eqf xs ys
    | .dict es, .dict fs => dictNativeEq eqf es fs
    | .dictKeys xs, .dictKeys ys =>
        if xs.length != ys.length then .ok false
        else listAllE (fun x => listAnyE (fun y => eqf x y) ys) xs
    | _, _ => .ok false

/-- Native Python `==` on the fragment, with fuel bounding nesting depth. -/
def pyDunderEq : Nat → PyVal → PyVal → Except PyErr Bool
  | 0, _, _ => .error .recursionError
  | m + 1, a, b => pyDunderEqBody (fun x y => pyDunderEq m x y) a b

/-! ## The equality engine (`gstats_utils/pythonutils/equality.py`)

`equal(a, b, selector, strict_types, unordered, raise_err)` is embedded as
`equalRec`.  The module-global `_CURR_EQUAL_KWARGS` is threaded explicitly as
an `Option EqKwargs` argument (None when no `equal` call is active); the
sentinel defaults `_EQ_DEFAULT_STRICT_TYPES` / `_EQ_DEFAULT_UNORDERED` are
modelled as `Option.none` parameters.  Nested `equal` calls made by the body
always pass every keyword explicitly (source lines 146, 196-201, 218, 274,
285), so they read nothing from the global; each nested call's context
manager restores the global to the value it had on entry (`_ReturnCurrEqual
Kwargs.__exit__` writes `prev_strict_types` / `prev_unordered` back, lines
54-61, and those assignments set both of the dictionary's keys), so the body
leaves the global exactly as it found it.  The embedding therefore lets each
call compute its final global directly from `control_kwargs` and the saved
`prev_*` values, which is the value the source's `__exit__` produces. -/

/-- Value of the module global `_CURR_EQUAL_KWARGS` when it is not None
(equality.py line 109). -/
structure EqKwargs where
  strict_types : Bool
  unordered : Bool
deriving DecidableEq, Repr

/-- Where the source calls `_eq_check(checked, a, b, raise_err, message)`
(equality.py lines 356-362): False raises `EqualityError` when `raise_err`
is set, else returns the boolean.  The `a`, `b`, `message` arguments shape
only the exception text and are dropped. -/
def eq_check (checked : Bool) (raise_err : Bool) : Except PyErr Bool :=
  if checked then .ok true
  else if raise_err then .error .equalityError
  else .ok false

/-- Selector validation (equality.py lines 127-135): the empty string means
no selector, a leading alphabetic character makes it an attribute selector
(prefixed with '.'), a leading '.', '_' or '[' is accepted as-is, anything
else raises a raw ValueError. -/
def validateSelector : Option String → Except PyErr (Option String)
  | none => .ok none
  | some s =>
    match s.data with
    | [] => .ok none
    | c :: _ =>
      if c.isAlpha then .ok (some ("." ++ s))
      else if c = '.' || c = '_' || c = '[' then .ok (some s)
      else .error .valueError

/-- Model of `eval('a' + selector)` (equality.py lines 141-143) on the
fragment: an index selector "[i]" (i a decimal literal) applied to a list or
tuple yields the element (out-of-range gives CPython IndexError, modelled as
`none`); every other selector is modelled as failing (attribute access and
slices do fail on the fragment's values; string indexing, which CPython
would allow, is left outside the modelled selector language), and `equal`
wraps the failure into `EqualityCheckingError`. -/
def evalSelector (sel : String) (x : PyVal) : Option PyVal :=
  match sel.data with
  | '[' :: rest =>
    match rest.reverse with
    | ']' :: digitsRev =>
      let ds := digitsRev.reverse
      if ds.isEmpty then none
      else if ds.all Char.isDigit then
        let i := ds.foldl (fun acc c => acc * 10 + (c.toNat - 48)) 0
        match x with
        | .list xs => xs.get? i
        | .tuple xs => xs.get? i
        | _ => none
      else none
    | _ => none
  | _ => none

/-- The per-index loop of the ordered-sequence branch (equality.py lines
215-223): a recursive `equal` on each pair; a False result returns False, an
`EqualityError` from the element comparison is re-raised (as a new
`EqualityError` naming the index), any other exception becomes
`EqualityCheckingError`. -/
def seqElemsLoop (eqf : PyVal → PyVal → Except PyErr Bool) :
    List (PyVal × PyVal) → Except PyErr Bool
  | [] => .ok true
  | (x, y) :: rest =>
    match eqf x y with
    | .ok true => seqElemsLoop eqf rest
    | .ok false => .ok false
    | .error .equalityError => .error .equalityError
    | .error _ => .error .equalityCheckingError

/-- The per-key loop of the dict branch (equality.py lines 283-290):
`equal(a[k], b[k], ...)` for each key of `a`; `b[k]` is a native lookup whose
KeyError (or any error inside native `==`) is caught by the surrounding
`except Exception` and becomes `EqualityCheckingError`; an `EqualityError`
from the value comparison is re-raised; a False result returns False.  The
loop walks `a`'s entry list and uses each entry's own value for `a[k]`,
which agrees with the source's re-lookup because a Python dict never holds
two `==`-equal keys. -/
def dictValsLoop (eqf : PyVal → PyVal → Except PyErr Bool)
    (natEq : PyVal → PyVal → Except PyErr Bool) (fs : List (PyVal × PyVal)) :
    List (PyVal × PyVal) → Except PyErr Bool
  | [] => .ok true
  | (k, v) :: rest =>
    match lookupNative natEq fs k with
    | .error _ => .error .equalityCheckingError
    | .ok none => .error .equalityCheckingError
    | .ok (some w) =>
      match eqf v w with
      | .ok true => dictValsLoop eqf natEq fs rest
      | .ok false => .ok false
      | .error .equalityError => .error .equalityError
      | .error _ => .error .equalityCheckingError

/-- The body of `equal` inside the context manager (equality.py lines
126-305), with nested `equal` calls abstracted as `eqf` (full keyword
signature: a, b, selector, strict_types, unordered, raise_err) and native
`==` running at fuel `m + 1`.  The trailing `match` is the enclosing
`try/except` of lines 155-305: `EqualityError` is re-raised, every other
exception becomes `EqualityCheckingError`. -/
def equalWithBody (m : Nat)
    (eqf : PyVal → PyVal → Option String → Option Bool → Option Bool → Bool →
      Except PyErr Bool)
    (a b : PyVal) (selector : Option String)
    (strict_types unordered raise_err : Bool) : Except PyErr Bool :=
  match validateSelector selector with
  | .error e => .error e
  | .ok (some sel) =>
    -- `selector` path (lines 138-153): evaluate the selector on both
    -- operands, then compare the sub-objects with the selector consumed.
    -- Failures of the selector itself become EqualityCheckingError; an
    -- EqualityError from the recursive comparison is re-raised naming the
    -- selector; other exceptions become EqualityCheckingError.
    match evalSelector sel a with
    | none => .error .equalityCheckingError
    | some ca =>
      match evalSelector sel b with
      | none => .error .equalityCheckingError
      | some cb =>
        match eqf ca cb none (some strict_types) (some unordered) raise_err with
        | .ok r => .ok r
        | .error .equalityError => .error .equalityError
        | .error _ => .error .equalityCheckingError
  | .ok none =>
    -- main comparison, wrapped by the big try of lines 155-305
    let body : Except PyErr Bool :=
      -- line 159: identity fast path
      if a.pyIs b then .ok true
      -- line 163: strict_types gate
      else if strict_types && (a.pyTypeOf != b.pyTypeOf) then
        eq_check false raise_err
      -- line 171: singletons (and Enums, outside the fragment): identity
      -- already failed, so unequal
      else if a.isSingleton then eq_check false raise_err
      -- lines 175-179: bool branch; bools never equal non-bools
      else if a.isBool || b.isBool then
        if !(a.isBool && b.isBool) then eq_check false raise_err
        else
          match pyDunderEq (m + 1) a b with
          | .ok r => eq_check r raise_err
          | .error e => .error e
      -- lines 182-185: direct `==` types
      else if a.isDunderEqType then
        if !b.isDunderEqType then eq_check false raise_err
        else
          match pyDunderEq (m + 1) a b with
          | .ok r => eq_check r raise_err
          | .error e => .error e
      else
        match a, b with
        -- lines 188-230: ordered-sequence branch (numpy arrays and
        -- generators are outside the fragment)
        | .list xs, bb | .tuple xs, bb =>
          match bb with
          | .dictKeys ys =>
            -- line 201: _check_with_conversion(a, None, b, list, unordered,
            -- raise_err); its `strict_types` parameter defaults to False, so
            -- the recursive call runs equal(a, list(b), selector=None,
            -- strict_types=False, unordered=unordered, raise_err=raise_err)
            -- (lines 308-330).  EqualityCheckingError is re-raised; an
            -- EqualityError (possible only when raise_err is set) reaches
            -- `_eq_check(False, ..., raise_err)` which raises a fresh
            -- EqualityError.  Other exceptions cannot arise here because the
            -- conversions are total on the fragment (the remaining case is
            -- the fuel artifact, propagated unchanged).
            (match eqf a (.list ys) none (some false) (some unordered) raise_err with
             | .ok r => .ok r
             | .error .equalityCheckingError => .error .equalityCheckingError
             | .error .equalityError => .error .equalityError
             | .error e => .error e)
          | .list ys =>
            if xs.length != ys.length then eq_check false raise_err
            else if !unordered then
              seqElemsLoop
                (fun x y => eqf x y none (some strict_types) (some unordered) raise_err)
                (xs.zip ys)
            else .error .notImplementedError
          | .tuple ys =>
            if xs.length != ys.length then eq_check false raise_err
            else if !unordered then
              seqElemsLoop
                (fun x y => eqf x y none (some strict_types) (some unordered) raise_err)
                (xs.zip ys)
            else .error .notImplementedError
          | _ => eq_check false raise_err
        -- lines 267-293: dict branch
        | .dict es, bb =>
          match bb with
          | .dict fs =>
            -- lines 273-280: equal(a.keys(), b.keys(), ...), EqualityError
            -- re-raised, other exceptions become EqualityCheckingError
            (match eqf (.dictKeys (es.map Prod.fst)) (.dictKeys (fs.map Prod.fst))
                none (some strict_types) (some unordered) raise_err with
             | .ok false => .ok false
             | .ok true =>
               dictValsLoop
                 (fun x y => eqf x y none (some strict_types) (some unordered) raise_err)
                 (pyDunderEq (m + 1)) fs es
             | .error .equalityError => .error .equalityError
             | .error _ => .error .equalityCheckingError)
          | _ => eq_check false raise_err
        -- line 300: fallback to the value's own __eq__ (unreachable for the
        -- fragment, every kind being handled above)
        | _, _ =>
          match pyDunderEq (m + 1) a b with
          | .ok r => eq_check r raise_err
          | .error e => .error e
    match body with
    | .ok r => .ok r
    | .error .equalityError => .error .equalityError
    | .error _ => .error .equalityCheckingError

/-- The function `equal` (equality.py lines 64-305).  Arguments mirror the
source signature with the sentinel defaults as `none`; the final argument is
the module global `_CURR_EQUAL_KWARGS`, and the second component of the
result is that global after the call returns or raises.  Lines 104-121
resolve the effective kwargs (a first, controlling call initialises the
global to `{strict_types: False, unordered: False}`); the context manager
`_ReturnCurrEqualKwargs` (lines 49-61, 124) then guarantees the final global:
None for the controlling call, and the saved previous values otherwise. -/
def equalRec : Nat → PyVal → PyVal → Option String → Option Bool →
    Option Bool → Bool → Option EqKwargs →
    Except PyErr Bool × Option EqKwargs
  | fuel, a, b, selector, strict?, unordered?, raise_err, g =>
    let control_kwargs := g.isNone
    let g1 := g.getD ⟨false, false⟩
    let prev_strict_types := g1.strict_types
    let prev_unordered := g1.unordered
    let strict_types := strict?.getD g1.strict_types
    let unordered := unordered?.getD g1.unordered
    let res : Except PyErr Bool :=
      match fuel with
      | 0 => .error .recursionError
      | m + 1 =>
        equalWithBody m
          (fun x y sel st un re =>
            (equalRec m x y sel st un re (some ⟨strict_types, unordered⟩)).1)
          a b selector strict_types unordered raise_err
    (res, if control_kwargs then none else some ⟨prev_strict_types, prev_unordered⟩)

/-- Top-level `equal` call: the module global starts at None (no enclosing
`equal` call is active). -/
def equal (fuel : Nat) (a b : PyVal) (selector : Option String)
    (strict_types unordered : Option Bool) (raise_err : Bool) :
    Except PyErr Bool × Option EqKwargs :=
  equalRec fuel a b selector strict_types unordered raise_err none

/-! ## SHA-256 (`hashlib.sha256`)

`hash_object` feeds UTF-8 text to `hashlib.sha256` and returns the hex
digest.  The library primitive is embedded directly from FIPS 180-4:
messages are byte lists, words are naturals reduced mod 2^32. -/

namespace SHA256

/-- Right rotation of a 32-bit word. -/
def rotr (k n : Nat) : Nat := ((n >>> k) ||| (n <<< (32 - k))) % 4294967296

/-- FIPS 180-4 Sigma-0. -/
def bsig0 (x : Nat) : Nat := rotr 2 x ^^^ rotr 13 x ^^^ rotr 22 x

/-- FIPS 180-4 Sigma-1. -/
def bsig1 (x : Nat) : Nat := rotr 6 x ^^^ rotr 11 x ^^^ rotr 25 x

/-- FIPS 180-4 sigma-0. -/
def ssig0 (x : Nat) : Nat := rotr 7 x ^^^ rotr 18 x ^^^ (x >>> 3)

/-- FIPS 180-4 sigma-1. -/
def ssig1 (x : Nat) : Nat := rotr 17 x ^^^ rotr 19 x ^^^ (x >>> 10)

/-- FIPS 180-4 Ch; the complement is taken within 32 bits. -/
def ch (x y z : Nat) : Nat := (x &&& y) ^^^ ((x ^^^ 4294967295) &&& z)

/-- FIPS 180-4 Maj. -/
def maj (x y z : Nat) : Nat := (x &&& y) ^^^ (x &&& z) ^^^ (y &&& z)

/-- Round constants K (FIPS 180-4 section 4.2.2). -/
def K : List Nat :=
  [0x428A2F98, 0x71374491, 0xB5C0FBCF, 0xE9B5DBA5, 0x3956C25B,
   0x59F111F1, 0x923F82A4, 0xAB1C5ED5, 0xD807AA98, 0x12835B01,
   0x243185BE, 0x550C7DC3, 0x72BE5D74, 0x80DEB1FE, 0x9BDC06A7,
   0xC19BF174, 0xE49B69C1, 0xEFBE4786, 0x0FC19DC6, 0x240CA1CC,
   0x2DE92C6F, 0x4A7484AA, 0x5CB0A9DC, 0x76F988DA, 0x983E5152,
   0xA831C66D, 0xB00327C8, 0xBF597FC7, 0xC6E00BF3, 0xD5A79147,
   0x06CA6351, 0x14292967, 0x27B70A85, 0x2E1B2138, 0x4D2C6DFC,
   0x53380D13, 0x650A7354, 0x766A0ABB, 0x81C2C92E, 0x92722C85,
   0xA2BFE8A1, 0xA81A664B, 0xC24B8B70, 0xC76C51A3, 0xD192E819,
   0xD6990624, 0xF40E3585, 0x106AA070, 0x19A4C116, 0x1E376C08,
   0x2748774C, 0x34B0BCB5, 0x391C0CB3, 0x4ED8AA4A, 0x5B9CCA4F,
   0x682E6FF3, 0x748F82EE, 0x78A5636F, 0x84C87814, 0x8CC70208,
   0x90BEFFFA, 0xA4506CEB, 0xBEF9A3F7, 0xC67178F2]

/-- Initial hash value H0 (FIPS 180-4 section 5.3.3). -/
def H0 : List Nat :=
  [0x6A09E667, 0xBB67AE85, 0x3C6EF372, 0xA54FF53A, 0x510E527F,
   0x9B05688C, 0x1F83D9AB, 0x5BE0CD19]

/-- Padding: append 0x80, zeros to 56 mod 64, then the bit length as eight
big-endian bytes. -/
def padMessage (msg : List Nat) : List Nat :=
  let L := msg.length
  let padLen := (119 - (L % 64)) % 64
  let bitLen := 8 * L
  let lenBytes := (List.range 8).map (fun i => (bitLen >>> (8 * (7 - i))) % 256)
  msg ++ [0x80] ++ List.replicate padLen 0 ++ lenBytes

/-- Big-endian grouping of bytes into 32-bit words. -/
def bytesToWords : List Nat → List Nat
  | a :: b :: c :: d :: rest =>
    ((a <<< 24) ||| (b <<< 16) ||| (c <<< 8) ||| d) :: bytesToWords rest
  | _ => []

/-- Message-schedule extension: append the next word `k` times. -/
def extendSchedule : Nat → List Nat → List Nat
  | 0, ws => ws
  | k + 1, ws =>
    let i := ws.length
    let w := (ssig1 (ws.getD (i - 2) 0) + ws.getD (i - 7) 0 +
              ssig0 (ws.getD (i - 15) 0) + ws.getD (i - 16) 0) % 4294967296
    extendSchedule k (ws ++ [w])

/-- The eight working registers. -/
structure Regs where
  a : Nat
  b : Nat
  c : Nat
  d : Nat
  e : Nat
  f : Nat
  g : Nat
  h : Nat
deriving Repr

/-- One compression round, consuming a (K, W) pair. -/
def compressStep (r : Regs) (kw : Nat × Nat) : Regs :=
  let t1 := (r.h + bsig1 r.e + ch r.e r.f r.g + kw.1 + kw.2) % 4294967296
  let t2 := (bsig0 r.a + maj r.a r.b r.c) % 4294967296
  { a := (t1 + t2) % 4294967296, b := r.a, c := r.b, d := r.c,
    e := (r.d + t1) % 4294967296, f := r.e, g := r.f, h := r.g }

/-- Process one 64-byte block given the running hash (eight words). -/
def processBlock (h : List Nat) (blockWords : List Nat) : List Nat :=
  let w := extendSchedule 48 blockWords
  let r0 : Regs :=
    { a := h.getD 0 0, b := h.getD 1 0, c := h.getD 2 0, d := h.getD 3 0,
      e := h.getD 4 0, f := h.getD 5 0, g := h.getD 6 0, h := h.getD 7 0 }
  let r := (K.zip w).foldl compressStep r0
  [(h.getD 0 0 + r.a) % 4294967296, (h.getD 1 0 + r.b) % 4294967296,
   (h.getD 2 0 + r.c) % 4294967296, (h.getD 3 0 + r.d) % 4294967296,
   (h.getD 4 0 + r.e) % 4294967296, (h.getD 5 0 + r.f) % 4294967296,
   (h.getD 6 0 + r.g) % 4294967296, (h.getD 7 0 + r.h) % 4294967296]

/-- Process `k` consecutive blocks of a padded byte list. -/
def processBlocks : Nat → List Nat → List Nat → List Nat
  | 0, _, h => h
  | k + 1, bytes, h =>
    processBlocks k (bytes.drop 64) (processBlock h (bytesToWords (bytes.take 64)))

/-- SHA-256 of a byte list, as the final eight words. -/
def sha256Words (msg : List Nat) : List Nat :=
  let padded := padMessage msg
  processBlocks (padded.length / 64) padded H0

/-- Hexadecimal digit characters. -/
def hexDigit (n : Nat) : Char := "0123456789abcdef".data.getD n '0'

/-- Eight-nibble lowercase hex rendering of a 32-bit word. -/
def wordToHex (w : Nat) : String :=
  String.mk ((List.range 8).map (fun i => hexDigit ((w >>> (4 * (7 - i))) % 16)))

/-- `hashlib.sha256(msg).hexdigest()`. -/
def hexdigest (msg : List Nat) : String :=
  String.join ((sha256Words msg).map wordToHex)

end SHA256

/-- UTF-8 bytes of a string; the embedded code only hashes ASCII text, for
which UTF-8 bytes are the code points. -/
def asciiBytes (s : String) : List Nat := s.data.map Char.toNat

/-! ## `gstatsutils/pythonutils/hashing.py` (the functional hasher)

`hash_object(obj, method='sha256', ret_type=str, strict_types=False)` hashes
singletons by type name, numerics by `"(Numeric) %s" % str(complex(obj))`,
enums (outside the fragment) by type and member name, and feeds nothing to
the hasher for any other kind.  Its `pytypes.SingletonObjects` import is the
missing module modelled by `PyVal.isSingleton`. -/

/-- CPython `type(x).__name__` on the fragment. -/
def pyTypeName : PyVal → String
  | .noneV => "NoneType"
  | .ellipsisV => "ellipsis"
  | .notImplementedV => "NotImplementedType"
  | .bool _ => "bool"
  | .int _ => "int"
  | .float _ => "float"
  | .complex _ _ => "complex"
  | .str _ => "str"
  | .list _ => "list"
  | .tuple _ => "tuple"
  | .dict _ => "dict"
  | .dictKeys _ => "dict_keys"

/-- CPython `repr` of a float component inside a complex repr: integral
values print without the trailing `.0`, and a negative zero prints as `-0`
(the fragment's floats are integer-valued). -/
def PyF.reprInComplex (f : PyF) : String :=
  if f.val = 0 && f.negZero then "-0" else toString f.val

/-- Whether a float component carries a negative sign bit (used for the sign
placement in complex repr). -/
def PyF.isNegSign (f : PyF) : Bool := f.val < 0 || (f.val = 0 && f.negZero)

/-- The complex value `complex(obj)` of a numeric, keeping the sign of zero
(CPython converts bool/int/float exactly for the fragment's integer-valued
floats). -/
def toComplexF : PyVal → Option (PyF × PyF)
  | .bool b => some (⟨if b then 1 else 0, false⟩, ⟨0, false⟩)
  | .int n => some (⟨n, false⟩, ⟨0, false⟩)
  | .float f => some (f, ⟨0, false⟩)
  | .complex re im => some (re, im)
  | _ => none

/-- CPython `str(complex(...))`: when the real part is a positive zero the
real component is omitted (`0j`, `1j`, `-0j`); otherwise the parenthesised
form prints the real part followed by the signed imaginary part
(`(1+0j)`, `(-0+0j)`, `(1-0j)`). -/
def strComplex (re im : PyF) : String :=
  if re.val = 0 && !re.negZero then PyF.reprInComplex im ++ "j"
  else
    "(" ++ PyF.reprInComplex re ++
      (if PyF.isNegSign im then PyF.reprInComplex im
       else "+" ++ PyF.reprInComplex im) ++ "j)"

/-- CPython `str(complex(obj))` for a numeric value of the fragment. -/
def strComplexOf (obj : PyVal) : String :=
  match toComplexF obj with
  | some (re, im) => strComplex re im
  | none => ""

namespace Gstatsutils

/-- The function `hash_object` of gstatsutils/pythonutils/hashing.py (lines
21-79), for the default `ret_type=str` (hexdigest) path.  `method` must name
a hashlib algorithm; the fragment's registry holds the one algorithm the
repository uses, `sha256` (an unknown name raises the source's raw
ValueError).  With `strict_types` the hasher is first fed
`"(%s) " % repr(type(obj).__name__)`; then singletons feed
`"(%s)" % repr(type(obj).__name__)`, numerics feed
`"(Numeric) %s" % str(complex(obj))`, and every other fragment kind feeds
nothing. -/
def hash_object (obj : PyVal) (method : String) (strict_types : Bool) :
    Except PyErr String :=
  if method != "sha256" then .error .valueError
  else
    let prefixBytes : List Nat :=
      if strict_types then asciiBytes ("('" ++ pyTypeName obj ++ "') ") else []
    let bodyBytes : List Nat :=
      if obj.isSingleton then asciiBytes ("('" ++ pyTypeName obj ++ "')")
      else if obj.isNumeric then asciiBytes ("(Numeric) " ++ strComplexOf obj)
      else []
    .ok (SHA256.hexdigest (prefixBytes ++ bodyBytes))

end Gstatsutils

/-! ## `gstats_utils/pythonutils/hashing.py`: `hash_object` and `HashableDict`

This module's `hash_object(obj, ordered=False, method='sha256')` (lines
24-41) is a stub: its method check is the bare ellipsis expression
`if isinstance(method, str): ...`, no `hasher` variable is ever bound, and
the closing `return _hash_helper(obj, hasher=hasher, ...)` therefore raises
`NameError: name 'hasher' is not defined` on every call, before `obj` is
examined at all.

`HashableDict` (lines 67-602) keeps two insertion-ordered string-keyed
dictionaries: `self` (inherited dict, digest -> value) and
`self._key_hashes_to_keys` (digest -> deep-copied key object).  They are
embedded as insertion-ordered association lists over digest strings. -/

namespace GstatsUtils

/-- The function `hash_object` of gstats_utils/pythonutils/hashing.py (lines
24-41): evaluating the call arguments of `_hash_helper` reads the unbound
name `hasher`, so every invocation raises `NameError("hasher")` regardless
of `obj`, `ordered` and `method`. -/
def hash_object (obj : PyVal) (ordered : Bool) (method : String) :
    Except PyErr String :=
  let _ := obj
  let _ := ordered
  let _ := method
  .error (.nameError "hasher")

/-- Lookup in an insertion-ordered association list (Python `d[k]` /
`d.get(k)` on a str-keyed dict). -/
def assocLookup (m : List (String × PyVal)) (k : String) : Option PyVal :=
  (m.find? (fun p => p.1 == k)).map Prod.snd

/-- Assignment `d[k] = v` on an insertion-ordered dict: overwrite in place
when the key exists, else append. -/
def assocSet (m : List (String × PyVal)) (k : String) (v : PyVal) :
    List (String × PyVal) :=
  if m.any (fun p => p.1 == k) then
    m.map (fun p => if p.1 == k then (k, v) else p)
  else m ++ [(k, v)]

/-- Deletion `del d[k]` on an insertion-ordered dict (the caller checks
presence). -/
def assocDelete (m : List (String × PyVal)) (k : String) :
    List (String × PyVal) :=
  m.filter (fun p => p.1 != k)

/-- The state of a `HashableDict`: `vals` is the inherited dict mapping
digest strings to values, `key_hashes_to_keys` is `self._key_hashes_to_keys`
mapping the same digest strings to the (deep-copied) key objects, plus the
`_ordered` and `_hash_method` attributes (lines 119-121). -/
structure HashableDict where
  key_hashes_to_keys : List (String × PyVal)
  vals : List (String × PyVal)
  ordered : Bool
  hash_method : String
deriving Repr

namespace HashableDict

/-- A freshly constructed empty dictionary (`HashableDict()`;
`_hash_method` is always `'sha256'`). -/
def empty (ordered : Bool) : HashableDict :=
  ⟨[], [], ordered, "sha256"⟩

/-- Method `_hash_key` (lines 146-150): delegates to the module's broken
`hash_object`, so it always raises `NameError("hasher")`. -/
def _hash_key (d : HashableDict) (key : PyVal) : Except PyErr String :=
  hash_object key d.ordered d.hash_method

/-- Method `_set_key_with_hash` (lines 152-158): stores the deep-copied key
in `_key_hashes_to_keys` and the value in the inherited dict, both under the
given digest (deep copy is the identity on immutable Lean values). -/
def _set_key_with_hash (d : HashableDict) (key newvalue : PyVal)
    (key_hash : String) : HashableDict :=
  { d with
    key_hashes_to_keys := assocSet d.key_hashes_to_keys key_hash key,
    vals := assocSet d.vals key_hash newvalue }

/-- Method `_get_value_with_hash` with the default
`default=_RAISE_ERR_ON_NO_KEY` (lines 160-174).  The source's body is
`return self._key_hashes_to_keys[key_hash]` — it reads the KEYS dictionary,
not the values one, so a present digest yields the stored key object. -/
def _get_value_with_hash (d : HashableDict) (key_hash : String) :
    Except PyErr PyVal :=
  match assocLookup d.key_hashes_to_keys key_hash with
  | some x => .ok x
  | none => .error .keyError

/-- Method `_get_value_with_hash` when the caller passes
`default=_OBJECT_MISSING` (union/intersection, lines 440 and 489): `none`
models the `_OBJECT_MISSING` marker.  It reads the same keys dictionary. -/
def _get_value_with_hash_missing (d : HashableDict) (key_hash : String) :
    Option PyVal :=
  assocLookup d.key_hashes_to_keys key_hash

/-- Method `_del_with_hash` (lines 176-190): delete from
`_key_hashes_to_keys`, then from the inherited dict; a `KeyError` is
swallowed when `raise_err` is false.  The returned pair is (raised error if
any, state after the call), since the first deletion persists even when the
second raises. -/
def _del_with_hash (d : HashableDict) (key_hash : String) (raise_err : Bool) :
    Except PyErr Unit × HashableDict :=
  match assocLookup d.key_hashes_to_keys key_hash with
  | none => (if raise_err then .error .keyError else .ok (), d)
  | some _ =>
    let d1 := { d with key_hashes_to_keys := assocDelete d.key_hashes_to_keys key_hash }
    match assocLookup d1.vals key_hash with
    | none => (if raise_err then .error .keyError else .ok (), d1)
    | some _ => (.ok (), { d1 with vals := assocDelete d1.vals key_hash })

/-- Method `_contains_key_hash` (lines 192-196). -/
def _contains_key_hash (d : HashableDict) (key_hash : String) : Bool :=
  d.key_hashes_to_keys.any (fun p => p.1 == key_hash)

/-- Method `_create_dict_with_same_kwargs` (lines 198-203): its body is
`HashableDict(__other, ordered=self.ordered)`, but no attribute `ordered`
exists (the field is `self._ordered`), so evaluating the argument raises
`AttributeError` before the constructor runs, on every call. -/
def _create_dict_with_same_kwargs (d : HashableDict) : Except PyErr HashableDict :=
  let _ := d
  .error (.attributeError "ordered")

/-- Method `keys` (lines 134-135): the stored key objects, in insertion
order. -/
def keys (d : HashableDict) : List PyVal :=
  d.key_hashes_to_keys.map Prod.snd

/-- Method `values` (lines 137-138): the stored values. -/
def values (d : HashableDict) : List PyVal :=
  d.vals.map Prod.snd

/-- Method `_items_with_key_hashes` (lines 143-144): the positional zip of
`_key_hashes_to_keys.values()`, `self.values()` and
`_key_hashes_to_keys.keys()`. -/
def _items_with_key_hashes (d : HashableDict) :
    List (PyVal × PyVal × String) :=
  (d.key_hashes_to_keys.map Prod.snd).zip
    ((d.vals.map Prod.snd).zip (d.key_hashes_to_keys.map Prod.fst))

/-- Method `__setitem__` (lines 205-209): hash the key, then store through
`_set_key_with_hash`.  Since `_hash_key` always raises
`NameError("hasher")`, no public insertion ever succeeds. -/
def setItem (d : HashableDict) (key newvalue : PyVal) :
    Except PyErr HashableDict := do
  let h ← d._hash_key key
  .ok (d._set_key_with_hash key newvalue h)

/-- Method `__getitem__` (lines 211-212). -/
def getItem (d : HashableDict) (key : PyVal) : Except PyErr PyVal := do
  let h ← d._hash_key key
  d._get_value_with_hash h

/-- Method `_ensure_compatible_kwargs` (lines 591-602) for an operand that
is already a `HashableDict`: operands whose `ordered` flags differ raise
ValueError.  A non-`HashableDict` operand (outside this embedding's
signature) would instead go through `_create_dict_with_same_kwargs` and hit
its AttributeError. -/
def _ensure_compatible_kwargs (self other : HashableDict) :
    Except PyErr HashableDict :=
  if other.ordered != self.ordered then .error .valueError else .ok other

end HashableDict

end GstatsUtils

namespace GstatsUtils

/-! ### Conflict-method parsing and the set operations

`_get_hashable_dict_conflict_method` (hashing.py lines 606-644) lowercases
and strips a string token and matches it against five fixed regular
expressions.  Each regex denotes a finite language, spelled out below
verbatim; the integer results are the class constants
`CONFLICT_RAISE_ERROR = 0`, `CONFLICT_KEEP_LEFT = 1`,
`CONFLICT_KEEP_RIGHT = 2`, `CONFLICT_KEEP_BOTH = 3`,
`CONFLICT_KEEP_SAME = 4` (lines 93-97).  Integer-valued inputs (accepted by
the source) are outside this embedding's string-typed signature. -/

/-- Full language of `r'(err(or)?|raise[ _-]?(err(or)?)?)'` (line 619). -/
def conflictRaiseStrings : List String :=
  ["err", "error", "raise", "raise ", "raise_", "raise-",
   "raiseerr", "raise err", "raise_err", "raise-err",
   "raiseerror", "raise error", "raise_error", "raise-error"]

/-- Full language of `r'(keep[ -_]?)?(left|self)'` (line 621). -/
def conflictLeftStrings : List String :=
  ["left", "self", "keepleft", "keep left", "keep_left", "keep-left",
   "keepself", "keep self", "keep_self", "keep-self"]

/-- Full language of `r'(keep[ -_]?)?(right|other)'` (line 623). -/
def conflictRightStrings : List String :=
  ["right", "other", "keepright", "keep right", "keep_right", "keep-right",
   "keepother", "keep other", "keep_other", "keep-other"]

/-- Full language of `r'(keep[ -_]?)?(both|tuple)'` (line 625). -/
def conflictBothStrings : List String :=
  ["both", "tuple", "keepboth", "keep both", "keep_both", "keep-both",
   "keeptuple", "keep tuple", "keep_tuple", "keep-tuple"]

/-- Full language of `r'(keep[ -_]?)?(same)'` (line 627). -/
def conflictSameStrings : List String :=
  ["same", "keepsame", "keep same", "keep_same", "keep-same"]

/-- Python `str.lower()` for the ASCII tokens the dictionary operations
accept. -/
def pyLower (s : String) : String := ⟨s.data.map Char.toLower⟩

/-- Python `str.strip()` (leading and trailing whitespace removed). -/
def pyStrip (s : String) : String :=
  ⟨((s.data.dropWhile Char.isWhitespace).reverse.dropWhile Char.isWhitespace).reverse⟩

/-- String resolution step of `_get_hashable_dict_conflict_method`: lines
617-630 (an unmatched token raises ValueError). -/
def parseConflictMethod (conflict_method : String) : Except PyErr Nat :=
  let clean := pyStrip (pyLower conflict_method)
  if conflictRaiseStrings.contains clean then .ok 0
  else if conflictLeftStrings.contains clean then .ok 1
  else if conflictRightStrings.contains clean then .ok 2
  else if conflictBothStrings.contains clean then .ok 3
  else if conflictSameStrings.contains clean then .ok 4
  else .error .valueError

/-- The function `_get_hashable_dict_conflict_method` (lines 608-644):
resolve the token, resolve each `dont_allow` token the same way (the source
recurses into itself for this), and reject a resolved value that is
disallowed (ValueError). -/
def _get_hashable_dict_conflict_method (conflict_method : String)
    (dont_allow : List String) : Except PyErr Nat := do
  let clean ← parseConflictMethod conflict_method
  let banned ← dont_allow.mapM parseConflictMethod
  if banned.contains clean then .error .valueError else .ok clean

namespace HashableDict

/-- One iteration of the `union` loop with `inplace=True` (lines 437-457):
`working_dict` is `self`, so the conflict lookup
`self._get_value_with_hash(k, key_hash, default=_OBJECT_MISSING)` reads the
dictionary as mutated so far.  On a `raise_on_conflict` conflict with
unequal values (`equal(self_v, v)` is a fresh top-level call, all keywords
defaulted), `_raise_key_error` raises KeyError and the entries merged before
it remain: the step either continues (`Sum.inl`) with the mutated `self` or
stops (`Sum.inr`) with the raised error paired with `self` as mutated so
far. -/
def unionStepInplace (fuel : Nat) (cm : Nat) (w : HashableDict)
    (item : PyVal × PyVal × String) :
    HashableDict ⊕ (Except PyErr HashableDict × HashableDict) :=
  match item with
  | (k, v, key_hash) =>
    let self_v := w._get_value_with_hash_missing key_hash
    if cm != 2 && self_v.isSome then
      match cm, self_v with
      | 1, _ => .inl w
      | 3, some sv => .inl (w._set_key_with_hash k (.tuple [sv, v]) key_hash)
      | 0, some sv =>
        match (equal fuel sv v none none none false).1 with
        | .ok true => .inl w
        | .ok false => .inr (.error .keyError, w)
        | .error e => .inr (.error e, w)
      | _, _ => .inr (.error .notImplementedError, w)
    else
      .inl (w._set_key_with_hash k v key_hash)

/-- The `union` loop with `inplace=True` over the remaining items, iterating
`unionStepInplace`. -/
def unionLoopInplace (fuel : Nat) (cm : Nat) (w : HashableDict) :
    List (PyVal × PyVal × String) → Except PyErr HashableDict × HashableDict
  | [] => (.ok w, w)
  | item :: rest =>
    match unionStepInplace fuel cm w item with
    | .inl w' => unionLoopInplace fuel cm w' rest
    | .inr out => out

/-- The body loop of `union` with `inplace=False`: `working_dict` is
`self.copy()`, while the conflict lookup still reads `self` (the source
names `self`, not `working_dict`, at line 440); on this path both hold the
same entries throughout, because a fresh conflict-free key is written to the
copy only.  Errors leave `self` untouched. -/
def unionLoopCopy (fuel : Nat) (cm : Nat) (self0 w : HashableDict) :
    List (PyVal × PyVal × String) → Except PyErr HashableDict
  | [] => .ok w
  | (k, v, key_hash) :: rest =>
    let self_v := self0._get_value_with_hash_missing key_hash
    if cm != 2 && self_v.isSome then
      match cm, self_v with
      | 1, _ => unionLoopCopy fuel cm self0 w rest
      | 3, some sv =>
        unionLoopCopy fuel cm self0 (w._set_key_with_hash k (.tuple [sv, v]) key_hash) rest
      | 0, some sv =>
        match (equal fuel sv v none none none false).1 with
        | .ok true => unionLoopCopy fuel cm self0 w rest
        | .ok false => .error .keyError
        | .error e => .error e
      | _, _ => .error .notImplementedError
    else
      unionLoopCopy fuel cm self0 (w._set_key_with_hash k v key_hash) rest

/-- Method `union` (lines 416-459).  `fuel` bounds the nested `equal` calls;
the result pair is (returned value or raised error, final state of `self`).
`conflict_method='same'` is disallowed (line 433). -/
def union (self other : HashableDict) (fuel : Nat) (inplace : Bool)
    (conflict_method : String) : Except PyErr HashableDict × HashableDict :=
  match self._ensure_compatible_kwargs other with
  | .error e => (.error e, self)
  | .ok o =>
    match _get_hashable_dict_conflict_method conflict_method ["same"] with
    | .error e => (.error e, self)
    | .ok clean_cm =>
      if inplace then
        unionLoopInplace fuel clean_cm self o._items_with_key_hashes
      else
        match unionLoopCopy fuel clean_cm self self o._items_with_key_hashes with
        | .ok w => (.ok w, self)
        | .error e => (.error e, self)

/-- Method `intersection` (lines 467-510).  After operand and
`keep_value_method` validation (`'raise'` disallowed, line 485), its first
statement `working_dict = self._create_dict_with_same_kwargs()` (line 487)
raises AttributeError, so the selection loop and the inplace
`clear()/update()` below it are unreachable and `self` is never mutated. -/
def intersection (self other : HashableDict) (inplace : Bool)
    (keep_value_method : String) : Except PyErr HashableDict × HashableDict :=
  match self._ensure_compatible_kwargs other with
  | .error e => (.error e, self)
  | .ok _o =>
    match _get_hashable_dict_conflict_method keep_value_method ["raise"] with
    | .error e => (.error e, self)
    | .ok _clean_cm =>
      let _ := inplace
      (.error (.attributeError "ordered"), self)

/-- The inplace loop of `difference` (lines 536-538): delete every digest of
the other operand from `self`, errors suppressed. -/
def diffDeleteLoop (w : HashableDict) :
    List (PyVal × PyVal × String) → Except PyErr HashableDict × HashableDict
  | [] => (.ok w, w)
  | (_, _, key_hash) :: rest =>
    let (r, w') := w._del_with_hash key_hash false
    match r with
    | .ok _ => diffDeleteLoop w' rest
    | .error e => (.error e, w')

/-- Body of `difference` after operand normalisation and the
`flip_operands` dispatch (lines 535-545).  The non-inplace branch's first
statement `ret = self._create_dict_with_same_kwargs()` (line 540) raises
AttributeError; were it to succeed, the filter at line 542 calls
`__other._contains_key_hash(k, key_hash)` with two arguments against a
one-parameter method, a TypeError. -/
def differenceBody (self other : HashableDict) (inplace : Bool) :
    Except PyErr HashableDict × HashableDict :=
  if inplace then diffDeleteLoop self other._items_with_key_hashes
  else (.error (.attributeError "ordered"), self)

/-- Method `difference` (lines 518-545): ensure compatible operands, then
either recurse with swapped operands (`flip_operands`, which mutates only
the other operand) or run the difference body.  The result pair is
(returned value or raised error, final state of `self`). -/
def difference (self other : HashableDict) (inplace flip_operands : Bool) :
    Except PyErr HashableDict × HashableDict :=
  match self._ensure_compatible_kwargs other with
  | .error e => (.error e, self)
  | .ok o =>
    if flip_operands then
      match o._ensure_compatible_kwargs self with
      | .error e => (.error e, self)
      | .ok s => ((differenceBody o s inplace).1, self)
    else differenceBody self o inplace

end HashableDict

end GstatsUtils

/-! ## Helper lemmas -/

/-- With `raise_err=False`, `_eq_check` returns its boolean argument. -/
theorem eq_check_no_raise (c : Bool) : eq_check c false = .ok c := by
  cases c <;> rfl

namespace GstatsUtils

/-- Replacing an existing digest: the overwritten entry is found. -/
theorem find?_map_overwrite (m : List (String × PyVal)) (k : String) (v : PyVal)
    (h : m.any (fun p => p.1 == k) = true) :
    (m.map (fun p => if p.1 == k then (k, v) else p)).find? (fun p => p.1 == k) = some (k, v) := by
  induction m with
  | nil => simp at h
  | cons p rest ih =>
    simp only [List.map_cons]
    by_cases hp : (p.1 == k) = true
    · rw [if_pos hp, List.find?_cons_of_pos _ (by simp)]
    · rw [if_neg hp, List.find?_cons_of_neg _ (by simpa using hp)]
      apply ih
      simp only [List.any_cons, hp, Bool.false_or] at h
      exact h

/-- Appending a fresh digest: the appended entry is found. -/
theorem find?_append_new (m : List (String × PyVal)) (k : String) (v : PyVal)
    (h : m.any (fun p => p.1 == k) = false) :
    (m ++ [(k, v)]).find? (fun p => p.1 == k) = some (k, v) := by
  have hm : m.find? (fun p => p.1 == k) = none := by
    rw [List.find?_eq_none]
    intro x hx
    have := List.any_eq_false.mp h x hx
    simpa using this
  rw [List.find?_append, hm]
  simp [List.find?]

/-- Storing under a digest then looking that digest up returns the stored
payload. -/
theorem assocLookup_assocSet_self (m : List (String × PyVal)) (k : String) (v : PyVal) :
    assocLookup (assocSet m k v) k = some v := by
  unfold assocSet assocLookup
  by_cases h : m.any (fun p => p.1 == k) = true
  · rw [if_pos h, find?_map_overwrite m k v h]
    rfl
  · rw [if_neg h, find?_append_new m k v (Bool.eq_false_iff.mpr h)]
    rfl

/-- Digest assignment either keeps the digest sequence (overwrite) or
appends the new digest. -/
theorem assocSet_map_fst (m : List (String × PyVal)) (k : String) (v : PyVal) :
    (assocSet m k v).map Prod.fst =
      if m.any (fun p => p.1 == k) then m.map Prod.fst else m.map Prod.fst ++ [k] := by
  unfold assocSet
  by_cases h : m.any (fun p => p.1 == k) = true
  · rw [if_pos h, if_pos h, List.map_map]
    apply List.map_congr_left
    intro p _
    by_cases hp : p.1 = k
    · simp [hp]
    · simp [hp]
  · rw [if_neg h, if_neg h]
    simp

/-- Digest assignment preserves duplicate-freedom of the digests. -/
theorem assocSet_nodup (m : List (String × PyVal)) (k : String) (v : PyVal)
    (h : (m.map Prod.fst).Nodup) : ((assocSet m k v).map Prod.fst).Nodup := by
  rw [assocSet_map_fst]
  by_cases hm : m.any (fun p => p.1 == k) = true
  · rw [if_pos hm]; exact h
  · rw [if_neg hm]
    have hk : k ∉ m.map Prod.fst := by
      intro hmem
      obtain ⟨p, hp, hpk⟩ := List.mem_map.mp hmem
      have := List.any_eq_false.mp (Bool.eq_false_iff.mpr hm) p hp
      simp [hpk] at this
    rw [List.nodup_append]
    exact ⟨h, List.nodup_singleton k, by simp [List.disjoint_singleton, hk]⟩

/-- Digest membership is determined by the digest sequence. -/
theorem list_any_key (h : String) (l : List (String × PyVal)) :
    l.any (fun p => p.1 == h) = (l.map Prod.fst).any (fun s => s == h) := by
  induction l with
  | nil => rfl
  | cons p rest ih => simp [List.any_cons, ih]

namespace HashableDict

/-- `_set_key_with_hash` keeps the two internal dictionaries on the same
digest sequence. -/
theorem _set_key_with_hash_sync (d : HashableDict) (k v : PyVal) (h : String)
    (hs : d.vals.map Prod.fst = d.key_hashes_to_keys.map Prod.fst) :
    (d._set_key_with_hash k v h).vals.map Prod.fst =
      (d._set_key_with_hash k v h).key_hashes_to_keys.map Prod.fst := by
  unfold _set_key_with_hash
  simp only [assocSet_map_fst]
  rw [list_any_key, list_any_key, hs]

/-- The inplace union loop always ends in the state produced by processing a
prefix of the other operand's entries: on success the whole list, on an
error exactly the entries before the failing one. -/
theorem unionLoopInplace_take (fuel cm : Nat) :
    ∀ (items : List (PyVal × PyVal × String)) (w : HashableDict),
      ∃ n, (unionLoopInplace fuel cm w items).2 =
        (unionLoopInplace fuel cm w (items.take n)).2 := by
  intro items
  induction items with
  | nil => exact fun w => ⟨0, rfl⟩
  | cons item rest ih =>
    intro w
    cases hstep : unionStepInplace fuel cm w item with
    | inl w' =>
      obtain ⟨n, hn⟩ := ih w'
      exact ⟨n + 1, by simp [unionLoopInplace, hstep, hn]⟩
    | inr out =>
      exact ⟨1, by simp [unionLoopInplace, hstep]⟩

end HashableDict

end GstatsUtils

/-! ## Claim theorems -/

/-- C1: the claim says storing `v` under any key `k` in `HashableDict` via
item assignment and reading `k` back returns `v`.  The code cannot do this:
(i) `__setitem__` and `__getitem__` both call the module's `hash_object`,
which reads the unbound name `hasher`, so every public insertion and lookup
raises `NameError` for every dictionary, key and value; and (ii) even with a
digest supplied directly
through the internal `_set_key_with_hash`, the lookup helper
`_get_value_with_hash` returns the entry of `_key_hashes_to_keys` — the
deep-copied KEY object (here the unhashable list `[1, 2]`), not the stored
value `"stored"` — contradicting its own docstring "Gets the value with the
given key_hash". -/
theorem c1_roundtrip_returns_key_not_value :
    (∀ (d : GstatsUtils.HashableDict) (k v : PyVal),
      d.setItem k v = .error (.nameError "hasher")) ∧
    (∀ (d : GstatsUtils.HashableDict) (k : PyVal),
      d.getItem k = .error (.nameError "hasher")) ∧
    (((GstatsUtils.HashableDict.empty false)._set_key_with_hash
        (.list [.int 1, .int 2]) (.str "stored") "h0")._get_value_with_hash "h0"
      = .ok (.list [.int 1, .int 2])) :=
  ⟨fun _ _ _ => rfl, fun _ _ => rfl, rfl⟩

/-- C2: the claim says `equal(a, b)` true implies equal `hash_object`
digests.  Counterexample `a = 0.0`, `b = -0.0`: `equal` compares them with
native `==` (IEEE `-0.0 == 0.0`, True), but `hash_object` feeds the hasher
`"(Numeric) %s" % str(complex(obj))`, and `str(complex(0.0)) = '0j'` while
`str(complex(-0.0)) = '(-0+0j)'`, so the SHA-256 digests differ —
contradicting the source's own comment "that way all values are equal no
matter format". -/
theorem c2_equal_hash_invariant_negzero_bug :
    (equal 5 (.float ⟨0, false⟩) (.float ⟨0, true⟩) none none none false).1 = .ok true ∧
    Gstatsutils.hash_object (.float ⟨0, false⟩) "sha256" false =
      .ok "92f28d0abc4c1742fbfa23099dbbbafc665a569fc90af9d617f1d9d4d36d84ba" ∧
    Gstatsutils.hash_object (.float ⟨0, true⟩) "sha256" false =
      .ok "dc543109489960781004e9d82c5100f032fe4c84c53dd7f22489894277ed0c9b" ∧
    decide ("92f28d0abc4c1742fbfa23099dbbbafc665a569fc90af9d617f1d9d4d36d84ba"
      = "dc543109489960781004e9d82c5100f032fe4c84c53dd7f22489894277ed0c9b") = false :=
  ⟨rfl, rfl, rfl, by decide⟩

/-- C3: the claim's invariant (one entry per digest, the entry retaining a
deep copy of the key so iteration yields real key objects).  The cited
internal helper `_set_key_with_hash` does maintain it: the digest maps to
the stored key object, insertion into an empty dictionary makes `keys()`
yield exactly that key object, the two internal dictionaries keep identical
digest sequences, and digests stay duplicate-free.  But the public
insertion path every claimed operation sequence relies on
(`__setitem__`, and on it `__init__`/`fromkeys`/`update`) always raises
`NameError("hasher")` through the broken `hash_object`, so no entry is ever
created by a public operation. -/
theorem c3_insertion_invariant_unreachable :
    (∀ (d : GstatsUtils.HashableDict) (k v : PyVal) (h : String),
      GstatsUtils.assocLookup (d._set_key_with_hash k v h).key_hashes_to_keys h
        = some k) ∧
    (∀ (k v : PyVal) (h : String),
      ((GstatsUtils.HashableDict.empty false)._set_key_with_hash k v h).keys = [k]) ∧
    (∀ (d : GstatsUtils.HashableDict) (k v : PyVal) (h : String),
      d.vals.map Prod.fst = d.key_hashes_to_keys.map Prod.fst →
      (d._set_key_with_hash k v h).vals.map Prod.fst =
        (d._set_key_with_hash k v h).key_hashes_to_keys.map Prod.fst) ∧
    (∀ (d : GstatsUtils.HashableDict) (k v : PyVal) (h : String),
      (d.key_hashes_to_keys.map Prod.fst).Nodup →
      ((d._set_key_with_hash k v h).key_hashes_to_keys.map Prod.fst).Nodup) ∧
    (∀ (d : GstatsUtils.HashableDict) (k v : PyVal),
      d.setItem k v = .error (.nameError "hasher")) := by
  refine ⟨?_, ?_, ?_, ?_, fun _ _ _ => rfl⟩
  · intro d k v h
    unfold GstatsUtils.HashableDict._set_key_with_hash
    exact GstatsUtils.assocLookup_assocSet_self _ h k
  · intro k v h
    rfl
  · intro d k v h hs
    exact GstatsUtils.HashableDict._set_key_with_hash_sync d k v h hs
  · intro d k v h hn
    unfold GstatsUtils.HashableDict._set_key_with_hash
    exact GstatsUtils.assocSet_nodup _ h k hn

/-- Witness for C3 at concrete inputs: key `[1]` stored under digest "h0"
in the empty dictionary is found again, and from a one-entry dictionary a
second insertion keeps the two digest sequences equal and duplicate-free. -/
theorem c3_insertion_invariant_unreachable_witness :
    GstatsUtils.assocLookup
      (((GstatsUtils.HashableDict.empty false)._set_key_with_hash
        (.list [.int 1]) (.int 7) "h0").key_hashes_to_keys) "h0"
      = some (.list [.int 1]) ∧
    ((((GstatsUtils.HashableDict.empty false)._set_key_with_hash
        (.list [.int 1]) (.int 7) "h0")._set_key_with_hash
        (.str "k") (.int 8) "h1").vals.map Prod.fst =
      (((GstatsUtils.HashableDict.empty false)._set_key_with_hash
        (.list [.int 1]) (.int 7) "h0")._set_key_with_hash
        (.str "k") (.int 8) "h1").key_hashes_to_keys.map Prod.fst) ∧
    ((((GstatsUtils.HashableDict.empty false)._set_key_with_hash
        (.list [.int 1]) (.int 7) "h0")._set_key_with_hash
        (.str "k") (.int 8) "h1").key_hashes_to_keys.map Prod.fst).Nodup :=
  ⟨c3_insertion_invariant_unreachable.1 (GstatsUtils.HashableDict.empty false)
      (.list [.int 1]) (.int 7) "h0",
    c3_insertion_invariant_unreachable.2.2.1 _ (.str "k") (.int 8) "h1" (by rfl),
    c3_insertion_invariant_unreachable.2.2.2.1 _ (.str "k") (.int 8) "h1" (by decide)⟩

/-- C4: numerics (bool excluded) compare by exact numeric value across
subtypes — for non-bool numerics `equal` returns precisely whether
`complex(a)` and `complex(b)` coincide; a bool never equals any non-bool
value (in either argument order); and the claim's instances
`equal(1, 1.0)`, `equal(1, complex(1, 0))` are True while `equal(True, 1)`
is False. -/
theorem c4_numeric_bool_partition :
    (∀ (fuel : Nat) (a b : PyVal),
      a.isNumeric = true → b.isNumeric = true → a.isBool = false → b.isBool = false →
      (equal (fuel + 1) a b none none none false).1 =
        .ok (a.toComplexVal == b.toComplexVal)) ∧
    (∀ (fuel : Nat) (b : Bool) (v : PyVal), v.isBool = false →
      (equal (fuel + 1) (.bool b) v none none none false).1 = .ok false ∧
      (equal (fuel + 1) v (.bool b) none none none false).1 = .ok false) ∧
    (equal 5 (.int 1) (.float ⟨1, false⟩) none none none false).1 = .ok true ∧
    (equal 5 (.int 1) (.complex ⟨1, false⟩ ⟨0, false⟩) none none none false).1 = .ok true ∧
    (equal 5 (.bool true) (.int 1) none none none false).1 = .ok false := by
  refine ⟨?_, ?_, rfl, rfl, rfl⟩
  · intro fuel a b ha hb ha' hb'
    cases a <;> cases b <;>
      simp_all [equal, equalRec, equalWithBody, validateSelector, eq_check,
        pyDunderEq, pyDunderEqBody, PyVal.pyIs, PyVal.isSingleton, PyVal.isBool,
        PyVal.isDunderEqType, PyVal.isNumeric, PyVal.toComplexVal] <;>
      split_ifs with h <;>
      simp_all [beq_eq_false_iff_ne, Prod.ext_iff]
  · intro fuel b v hv
    constructor
    · cases v <;>
        simp_all [equal, equalRec, equalWithBody, validateSelector, eq_check,
          PyVal.pyIs, PyVal.isSingleton, PyVal.isBool]
    · cases v <;>
        simp_all [equal, equalRec, equalWithBody, validateSelector, eq_check,
          PyVal.pyIs, PyVal.isSingleton, PyVal.isBool, PyVal.isDunderEqType,
          pyDunderEq, pyDunderEqBody, PyVal.toComplexVal]

/-- Witness for C4 at concrete inputs: `equal(2, 2.0)` is True by the
general numeric clause, and `equal(False, "x")` is False by the bool
clause. -/
theorem c4_numeric_bool_partition_witness :
    (equal 3 (.int 2) (.float ⟨2, false⟩) none none none false).1 = .ok true ∧
    (equal 3 (.bool false) (.str "x") none none none false).1 = .ok false := by
  constructor
  · exact c4_numeric_bool_partition.1 2 (.int 2) (.float ⟨2, false⟩) rfl rfl rfl rfl
  · exact (c4_numeric_bool_partition.2.1 2 false (.str "x") rfl).1

/-- C5: with `strict_types=True`, operands of different concrete types
never compare equal unless they are the identical object (the identity fast
path precedes the strict-type gate); in particular
`equal([1], (1,), strict_types=True)` is False while the default
`equal([1], (1,))` is True. -/
theorem c5_strict_type_gate :
    (∀ (fuel : Nat) (a b : PyVal),
      (a.pyTypeOf == b.pyTypeOf) = false → a.pyIs b = false →
      (equal (fuel + 1) a b none (some true) none false).1 = .ok false) ∧
    (equal 5 (.list [.int 1]) (.tuple [.int 1]) none (some true) none false).1 = .ok false ∧
    (equal 5 (.list [.int 1]) (.tuple [.int 1]) none none none false).1 = .ok true := by
  refine ⟨?_, rfl, rfl⟩
  intro fuel a b ht his
  have ht' : ¬(a.pyTypeOf = b.pyTypeOf) := by simpa using ht
  simp only [equal, equalRec]
  simp [equalWithBody, validateSelector, his, ht', eq_check]

/-- Witness for C5 at concrete inputs: an int and a str differ in type and
are not identical, so `equal(1, "x", strict_types=True)` is False. -/
theorem c5_strict_type_gate_witness :
    (equal 5 (.int 1) (.str "x") none (some true) none false).1 = .ok false :=
  c5_strict_type_gate.1 4 (.int 1) (.str "x") (by decide) (by decide)

/-- C6: the claim says a cyclic container makes `hash_object` fail with
`CyclicObjectError`.  The code raises `NameError("hasher")` instead, for
every object, configuration and method — it fails before looking at `obj`
at all (including any cyclic one), no cycle tracking runs, and no
`CyclicObjectError` class exists anywhere in the repository (the final
conjunct records that the raised error is a different `PyErr` value than
the taxonomy's cycle error). -/
theorem c6_hash_object_nameerror_not_cyclic :
    (∀ (obj : PyVal) (ordered : Bool) (method : String),
      GstatsUtils.hash_object obj ordered method = .error (.nameError "hasher")) ∧
    decide (PyErr.nameError "hasher" = PyErr.cyclicObjectError) = false :=
  ⟨fun _ _ _ => rfl, by decide⟩

/-- C7: the claim says non-inplace difference returns the entries of `self`
absent from the other operand; for `A = {a: 1, b: 2}`, `B = {b: 20, c: 3}`
it should return `{a: 1}`.  The code instead raises `AttributeError`
(`_create_dict_with_same_kwargs` reads the nonexistent attribute
`self.ordered`; the field is `_ordered`) and leaves `A` unmodified; even
past that bug, the filter calls `_contains_key_hash(k, key_hash)` with two
arguments against a one-parameter method, a TypeError.  The dictionary
states are built through the internal digest-indexed insertion helper,
since the public insertion path itself always fails (see C1/C3). -/
theorem c7_difference_attributeerror :
    (((((GstatsUtils.HashableDict.empty false)._set_key_with_hash (.str "a") (.int 1)
        "h_a")._set_key_with_hash (.str "b") (.int 2) "h_b").difference
      (((GstatsUtils.HashableDict.empty false)._set_key_with_hash (.str "b") (.int 20)
        "h_b")._set_key_with_hash (.str "c") (.int 3) "h_c") false false).1
      = .error (.attributeError "ordered")) ∧
    (((((GstatsUtils.HashableDict.empty false)._set_key_with_hash (.str "a") (.int 1)
        "h_a")._set_key_with_hash (.str "b") (.int 2) "h_b").difference
      (((GstatsUtils.HashableDict.empty false)._set_key_with_hash (.str "b") (.int 20)
        "h_b")._set_key_with_hash (.str "c") (.int 3) "h_c") false false).2
      = (((GstatsUtils.HashableDict.empty false)._set_key_with_hash (.str "a") (.int 1)
        "h_a")._set_key_with_hash (.str "b") (.int 2) "h_b")) :=
  ⟨rfl, rfl⟩

/-- C8: the claim says `equal` and `hash_object` surface only taxonomy
errors, wrapping everything else.  `hash_object`
(gstats_utils/pythonutils/hashing.py) raises the raw `NameError("hasher")`
on every input, and `equal` raises a raw `ValueError` for a selector string
starting with a character outside letters and `._[` (the selector
validation sits before the wrapping try/except); neither error kind belongs
to the documented taxonomy. -/
theorem c8_raw_errors_escape_taxonomy :
    (∀ (obj : PyVal) (ordered : Bool) (method : String),
      GstatsUtils.hash_object obj ordered method = .error (.nameError "hasher")) ∧
    (PyErr.nameError "hasher").inTaxonomy = false ∧
    (equal 5 (.int 1) (.int 2) (some "0bad") none none false).1 = .error .valueError ∧
    PyErr.valueError.inTaxonomy = false :=
  ⟨fun _ _ _ => rfl, rfl, rfl, rfl⟩

/-- C9 counterexample: the claim says an inplace union that raises mid-way
leaves `self` unmodified.  For `self = {a: 1}` and the other operand
holding `b` before a conflicting `a` (values 2 and 99), the
`raise_on_conflict` union raises KeyError on the second entry after having
already merged the first: afterwards `self` holds two entries instead of
its original one. -/
theorem c9_inplace_union_partial_mutation_counterexample :
    ((((GstatsUtils.HashableDict.empty false)._set_key_with_hash (.str "a") (.int 1)
        "h_a").union
      (((GstatsUtils.HashableDict.empty false)._set_key_with_hash (.str "b") (.int 2)
        "h_b")._set_key_with_hash (.str "a") (.int 99) "h_a") 5 true "raise").1
      = .error .keyError) ∧
    (((((GstatsUtils.HashableDict.empty false)._set_key_with_hash (.str "a") (.int 1)
        "h_a").union
      (((GstatsUtils.HashableDict.empty false)._set_key_with_hash (.str "b") (.int 2)
        "h_b")._set_key_with_hash (.str "a") (.int 99)
        "h_a") 5 true "raise").2).key_hashes_to_keys.length = 2) ∧
    ((GstatsUtils.HashableDict.empty false)._set_key_with_hash (.str "a") (.int 1)
      "h_a").key_hashes_to_keys.length = 1 :=
  ⟨rfl, rfl, rfl⟩

/-- C9 as amended: inplace union is not atomic — after the call, `self` is
exactly the state obtained by processing some prefix of the other operand's
entries (the whole list on success, the entries before the failure
otherwise), so merges made before an error persist; `intersection` never
mutates `self` at all (with any `inplace` flag it fails inside
`_create_dict_with_same_kwargs` before its first mutation); and non-inplace
union also leaves `self` unchanged. -/
theorem c9_inplace_union_prefix_mutation :
    (∀ (s o : GstatsUtils.HashableDict) (fuel : Nat) (cm : String),
      ∃ n cmv, (s.union o fuel true cm).2 =
        (GstatsUtils.HashableDict.unionLoopInplace fuel cmv s
          (o._items_with_key_hashes.take n)).2) ∧
    (∀ (s o : GstatsUtils.HashableDict) (inplace : Bool) (kvm : String),
      (s.intersection o inplace kvm).2 = s) ∧
    (∀ (s o : GstatsUtils.HashableDict) (fuel : Nat) (cm : String),
      (s.union o fuel false cm).2 = s) := by
  refine ⟨?_, ?_, ?_⟩
  · intro s o fuel cm
    unfold GstatsUtils.HashableDict.union
    cases hens : s._ensure_compatible_kwargs o with
    | error e => exact ⟨0, 0, rfl⟩
    | ok o' =>
      have ho : o' = o := by
        unfold GstatsUtils.HashableDict._ensure_compatible_kwargs at hens
        by_cases hord : (o.ordered != s.ordered) = true
        · rw [if_pos hord] at hens; exact Except.noConfusion hens
        · rw [if_neg hord] at hens; injection hens with h'; exact h'.symm
      subst ho
      cases hcm : GstatsUtils._get_hashable_dict_conflict_method cm ["same"] with
      | error e => exact ⟨0, 0, rfl⟩
      | ok cmv =>
        obtain ⟨n, hn⟩ :=
          GstatsUtils.HashableDict.unionLoopInplace_take fuel cmv
            o'._items_with_key_hashes s
        exact ⟨n, cmv, by simp [hn]⟩
  · intro s o inplace kvm
    unfold GstatsUtils.HashableDict.intersection
    cases hens : s._ensure_compatible_kwargs o with
    | error e => rfl
    | ok o' =>
      cases hcm : GstatsUtils._get_hashable_dict_conflict_method kvm ["raise"] with
      | error e => rfl
      | ok cmv => rfl
  · intro s o fuel cm
    unfold GstatsUtils.HashableDict.union
    cases hens : s._ensure_compatible_kwargs o with
    | error e => rfl
    | ok o' =>
      cases hcm : GstatsUtils._get_hashable_dict_conflict_method cm ["same"] with
      | error e => rfl
      | ok cmv =>
        show (match GstatsUtils.HashableDict.unionLoopCopy fuel cmv s s
            o'._items_with_key_hashes with
          | Except.ok w => ((Except.ok w : Except PyErr GstatsUtils.HashableDict), s)
          | Except.error e => (Except.error e, s)).2 = s
        cases GstatsUtils.HashableDict.unionLoopCopy fuel cmv s s
          o'._items_with_key_hashes <;> rfl

/-- C10: the module global `_CURR_EQUAL_KWARGS` is restored to exactly its
entry value by every `equal` call — in particular a top-level call (entry
value None) always leaves it None, whether it returns or raises; and a
top-level call leaving `strict_types`/`unordered` at their sentinel
defaults behaves identically to one passing `strict_types=False,
unordered=False` explicitly, so completed earlier calls leak no
configuration into later top-level calls. -/
theorem c10_curr_equal_kwargs_restored :
    (∀ fuel a b sel st un re g, (equalRec fuel a b sel st un re g).2 = g) ∧
    (∀ fuel a b sel re,
      equalRec fuel a b sel none none re none =
        equalRec fuel a b sel (some false) (some false) re none) ∧
    (∀ fuel a b sel st un re,
      equal fuel a b sel st un re = equalRec fuel a b sel st un re none) := by
  refine ⟨?_, ?_, ?_⟩
  · intro fuel a b sel st un re g
    unfold equalRec
    cases g <;> cases fuel <;> rfl
  · intro fuel a b sel re
    unfold equalRec
    rfl
  · intro fuel a b sel st un re
    rfl
